import Mathlib

/-!
# Verification of the Recipe-App backend (src/backend/server.py)

A shallow embedding of the authentication / authorization core of the
FastAPI backend, together with theorems checking the specification's
claims against it.

Modelling conventions:
* Time is wall-clock in whole seconds (`Nat`); `datetime.utcnow()` becomes
  an explicit `now : Nat` parameter.
* MongoDB collections become Lean lists; `find_one` is `List.find?` (first
  match in insertion order), `insert_one` appends, and the ObjectId the
  store generates for an insert is derived from a counter in the state.
* Randomness (the bcrypt salt) becomes an explicit parameter.
* Python exceptions become explicit error results: `HTTPException(code,
  detail)` is `ApiResult.httpError code detail`; an exception that no
  handler catches surfaces as the framework's 500 "Internal Server Error"
  response.
* The two external crypto libraries (passlib's bcrypt context, PyJWT) are
  modelled from their documented behaviour, since their code is not part
  of this repository; each model carries a comment noting the behaviour it
  reflects.
-/

namespace RecipeApp

/-! ## ObjectId model

`bson.ObjectId(s)` accepts a 24-character hex string and raises
`InvalidId` on anything else.  We model ObjectIds as their 24-hex-digit
string form and give the generator used by the store. -/

def isHexDigitChar (c : Char) : Bool :=
  c.isDigit || ('a' ≤ c && c ≤ 'f') || ('A' ≤ c && c ≤ 'F')

/-- A string is accepted by `bson.ObjectId` iff it is 24 hex characters. -/
def objectIdValid (s : String) : Bool :=
  s.length == 24 && s.data.all isHexDigitChar

def hexDigitChar (n : Nat) : Char :=
  if n < 10 then Char.ofNat (48 + n) else Char.ofNat (87 + n)

/-- The ObjectId the document store generates for the `n`-th insert:
a deterministic stand-in for Mongo's generated id, in 24-hex form. -/
def oidOfNat (n : Nat) : String :=
  String.mk ((List.range 24).map (fun i => hexDigitChar (n / 16 ^ (23 - i) % 16)))

/-! ## Credential hasher (passlib `CryptContext(schemes=["bcrypt"])`)

`hash_password` / `verify_password` (server.py:108-112) delegate to
passlib.  Documented passlib/bcrypt behaviour reflected here:
* bcrypt hashes only the first 72 bytes of the UTF-8 encoding of the
  password; longer passwords are silently truncated (passlib's
  `truncate_error` defaults to false).
* `CryptContext.verify` raises `UnknownHashError` ("hash could not be
  identified") when the hash argument is not a recognized hash string —
  it does not return false.
* The key-derivation itself is idealized as an injective function of
  (cost, salt, truncated password bytes); the real function is
  collision-resistant, which the idealization strengthens to injectivity. -/

/-- UTF-8 encoding of a single character, as byte values. -/
def charUtf8Bytes (c : Char) : List Nat :=
  let n := c.toNat
  if n < 0x80 then [n]
  else if n < 0x800 then
    [0xC0 + n / 64, 0x80 + n % 64]
  else if n < 0x10000 then
    [0xE0 + n / 4096, 0x80 + n / 64 % 64, 0x80 + n % 64]
  else
    [0xF0 + n / 262144, 0x80 + n / 4096 % 64, 0x80 + n / 64 % 64, 0x80 + n % 64]

/-- UTF-8 bytes of a string. -/
def utf8Bytes (s : String) : List Nat :=
  s.data.flatMap charUtf8Bytes

/-- bcrypt's documented 72-byte password limit: the bytes actually hashed. -/
def bcryptInput (password : String) : List Nat :=
  (utf8Bytes password).take 72

/-- Idealized bcrypt key derivation (injective in its arguments). -/
def bcryptDigest (cost salt : Nat) (pwBytes : List Nat) : List Nat :=
  cost :: salt :: pwBytes

/-- A string offered as a password hash: either a well-formed bcrypt hash
(`$2b$cost$salt·digest`) or some other string passlib cannot identify. -/
inductive HashStr where
  | bcrypt (cost salt : Nat) (digest : List Nat)
  | other (s : String)
deriving Repr, DecidableEq

/-- `hash_password` (server.py:108-109): `pwd_context.hash(password)`.
The random salt is an explicit parameter; cost factor is passlib's
bcrypt default (12). -/
def hash_password (salt : Nat) (password : String) : HashStr :=
  .bcrypt 12 salt (bcryptDigest 12 salt (bcryptInput password))

/-- `verify_password` (server.py:111-112): `pwd_context.verify(plain, hashed)`.
Returns `Except` because passlib raises `UnknownHashError` on a hash
string it cannot identify. -/
def verify_password (plain_password : String) (hashed_password : HashStr) :
    Except String Bool :=
  match hashed_password with
  | .other _ => .error "UnknownHashError: hash could not be identified"
  | .bcrypt cost salt digest =>
      .ok (bcryptDigest cost salt (bcryptInput plain_password) == digest)

/-! ## Token codec (PyJWT, HS256)

`jwt.encode` / `jwt.decode` are modelled symbolically: a token string is
either a structurally well-formed JWT carrying a payload and the key it
was signed with, or a garbled string.  `jwt.decode` (PyJWT documented
behaviour) verifies the signature first, then — only when an `exp` claim
is present — rejects the token with `ExpiredSignatureError` when
`exp < now` (zero leeway).  Signature failure and structural garbage both
raise `InvalidTokenError` subclasses. -/

/-- The decoded JWT payload dict: the `user_id` claim (if present) and the
`exp` claim (if present), times in whole seconds. -/
structure JwtPayload where
  user_id : Option String
  exp : Option Nat
deriving Repr, DecidableEq

/-- The claims dict passed to `create_access_token` (only `user_id` is
ever supplied by this server). -/
structure JwtClaims where
  user_id : Option String
deriving Repr, DecidableEq

/-- A token string, viewed symbolically. -/
inductive EncodedJwt where
  | signed (payload : JwtPayload) (key : String)
  | garbled (s : String)
deriving Repr, DecidableEq

inductive JwtError where
  | expiredSignature
  | invalidToken
deriving Repr, DecidableEq

/-- `ACCESS_TOKEN_EXPIRE_MINUTES = 60 * 24 * 7` (server.py:50). -/
def ACCESS_TOKEN_EXPIRE_MINUTES : Nat := 60 * 24 * 7

/-- The token TTL in seconds (the `timedelta(minutes=...)` of
server.py:116). -/
def tokenTTLSeconds : Nat := ACCESS_TOKEN_EXPIRE_MINUTES * 60

/-- `create_access_token` (server.py:114-119): copy the claims, add
`exp = utcnow() + timedelta(minutes=ACCESS_TOKEN_EXPIRE_MINUTES)`, sign
with the server secret. -/
def create_access_token (secret : String) (now : Nat) (data : JwtClaims) :
    EncodedJwt :=
  .signed { user_id := data.user_id, exp := some (now + tokenTTLSeconds) }
    secret

/-- `jwt.decode(token, SECRET_KEY, algorithms=[ALGORITHM])`
(server.py:124): signature check, then expiry check when `exp` is
present. -/
def decodeJwt (secret : String) (now : Nat) (token : EncodedJwt) :
    Except JwtError JwtPayload :=
  match token with
  | .garbled _ => .error .invalidToken
  | .signed payload key =>
      if key ≠ secret then .error .invalidToken
      else
        match payload.exp with
        | some e => if e < now then .error .expiredSignature else .ok payload
        | none => .ok payload

/-! ## Identity resolver (`get_current_user`, server.py:121-135)

The handler's `credentials: HTTPAuthorizationCredentials = Depends(security)`
runs FastAPI's `HTTPBearer` first.  Documented FastAPI behaviour
(`fastapi.security.HTTPBearer` with `auto_error=True`): a request with no
Authorization header (or one with no credential part) is rejected with
HTTP 403 "Not authenticated"; a header whose scheme is not `bearer`
(case-insensitively) is rejected with HTTP 403 "Invalid authentication
credentials".  Only then does `get_current_user` itself run. -/

/-- ASCII lower-casing of one character (Python's `str.lower` on the
scheme names involved). -/
def lowerChar (c : Char) : Char :=
  if 'A' ≤ c && c ≤ 'Z' then Char.ofNat (c.toNat + 32) else c

/-- ASCII lower-casing of a string (`scheme.lower()` in FastAPI's
`HTTPBearer`). -/
def strLower (s : String) : String :=
  String.mk (s.data.map lowerChar)

/-- The Authorization header of a request, as `HTTPBearer` sees it:
absent (or lacking a credential part), or a scheme plus a token string. -/
inductive AuthHeaderV where
  | missing
  | schemeTok (scheme : String) (token : EncodedJwt)
deriving Repr, DecidableEq

/-- One HTTP response: a success value or an `HTTPException(status, detail)`.
Status 500 "Internal Server Error" stands for an exception no handler
caught. -/
inductive ApiResult (α : Type) where
  | ok (a : α)
  | httpError (status : Nat) (detail : String)
deriving Repr, DecidableEq

/-- A stored user document (`db.users`): `_id` in its 24-hex string form,
email, bcrypt password hash, display name, creation time. -/
structure UserRec where
  oid : String
  email : String
  password : HashStr
  name : String
  created_at : Nat
deriving Repr, DecidableEq

/-- `get_current_user` (server.py:121-135), with FastAPI's `HTTPBearer`
step inlined in front.  Inside the handler: decode the token (expired →
401 "Token has expired", invalid → 401 "Could not validate credentials");
a payload without `user_id` → 401 "Invalid authentication credentials";
`ObjectId(user_id)` on a non-24-hex id raises `bson.errors.InvalidId`,
which no `except` clause catches → 500; an id with no matching user →
401 "User not found"; otherwise the user document is returned. -/
def get_current_user (secret : String) (now : Nat) (h : AuthHeaderV)
    (users : List UserRec) : ApiResult UserRec :=
  match h with
  | .missing => .httpError 403 "Not authenticated"
  | .schemeTok scheme token =>
    if strLower scheme == "bearer" then
      match decodeJwt secret now token with
      | .error .expiredSignature => .httpError 401 "Token has expired"
      | .error .invalidToken => .httpError 401 "Could not validate credentials"
      | .ok payload =>
        match payload.user_id with
        | none => .httpError 401 "Invalid authentication credentials"
        | some uid =>
          if objectIdValid uid then
            match users.find? (fun u => u.oid == uid) with
            | none => .httpError 401 "User not found"
            | some u => .ok u
          else .httpError 500 "Internal Server Error"
    else .httpError 403 "Invalid authentication credentials"

/-! ## Application state and the endpoint handlers -/

/-- A stored recipe document (`db.recipes`), with the fields the handlers
read and write. -/
structure RecipeRec where
  oid : String
  name : String
  category : String
  ingredients : List String
  steps : List String
  cooking_time : String
  difficulty : String
  image : String
  created_by : Option String
  created_at : Option Nat
deriving Repr, DecidableEq

/-- A stored favorite document (`db.favorites`). -/
structure FavRec where
  user_id : String
  recipe_id : String
  created_at : Nat
deriving Repr, DecidableEq

/-- The document store: the three collections plus the counter from which
the store derives the ObjectId of the next insert. -/
structure AppState where
  users : List UserRec
  recipes : List RecipeRec
  favorites : List FavRec
  nextId : Nat
deriving Repr, DecidableEq

/-- `UserRegister` request body (server.py:64-67). -/
structure UserRegister where
  email : String
  password : String
  name : String
deriving Repr, DecidableEq

/-- `UserLogin` request body (server.py:69-71). -/
structure UserLogin where
  email : String
  password : String
deriving Repr, DecidableEq

/-- The `User` response model (server.py:73-76): the public view of a
user, exactly the three fields the handlers put in the response dict. -/
structure UserPub where
  id : String
  email : String
  name : String
deriving Repr, DecidableEq

/-- The serialization of the `user` object in the register/login response
dicts (server.py:160-164 and 178-182): its key/value pairs in order. -/
def userViewPairs (u : UserPub) : List (String × String) :=
  [("id", u.id), ("email", u.email), ("name", u.name)]

/-- The `Token` response model (server.py:78-81). -/
structure TokenOut where
  access_token : EncodedJwt
  token_type : String
  user : UserPub
deriving Repr, DecidableEq

/-- `RecipeCreate` request body (server.py:95-102). -/
structure RecipeCreate where
  name : String
  category : String
  ingredients : List String
  steps : List String
  cooking_time : String
  difficulty : String
  image : String
deriving Repr, DecidableEq

/-- `register` (server.py:138-165): reject with 400 "Email already
registered" when `find_one({"email": ...})` hits; otherwise insert the
new user document (hashing the password) and answer with a fresh token
and the public view.  `salt` is the bcrypt salt drawn for this call. -/
def register (secret : String) (now salt : Nat) (user_data : UserRegister)
    (s : AppState) : ApiResult TokenOut × AppState :=
  match s.users.find? (fun u => u.email == user_data.email) with
  | some _ => (.httpError 400 "Email already registered", s)
  | none =>
    let oid := oidOfNat s.nextId
    let doc : UserRec :=
      { oid := oid, email := user_data.email,
        password := hash_password salt user_data.password,
        name := user_data.name, created_at := now }
    (.ok { access_token := create_access_token secret now ⟨some oid⟩,
           token_type := "bearer",
           user := { id := oid, email := user_data.email,
                     name := user_data.name } },
     { s with users := s.users ++ [doc], nextId := s.nextId + 1 })

/-- `login` (server.py:167-183): `if not user or not verify_password(...)`
→ 401 "Incorrect email or password" (the same response whether the email
is unknown or the password wrong); otherwise a fresh token and the public
view.  A stored hash `verify_password` cannot parse would raise out of
the handler (→ 500).  Reads only; the state is returned unchanged. -/
def login (secret : String) (now : Nat) (credentials : UserLogin)
    (s : AppState) : ApiResult TokenOut × AppState :=
  match s.users.find? (fun u => u.email == credentials.email) with
  | none => (.httpError 401 "Incorrect email or password", s)
  | some u =>
    match verify_password credentials.password u.password with
    | .error _ => (.httpError 500 "Internal Server Error", s)
    | .ok false => (.httpError 401 "Incorrect email or password", s)
    | .ok true =>
      (.ok { access_token := create_access_token secret now ⟨some u.oid⟩,
             token_type := "bearer",
             user := { id := u.oid, email := u.email, name := u.name } },
       s)

/-- `get_recipe` (server.py:235-255): the whole body sits in a
`try/except Exception` that answers 404 "Recipe not found", so an invalid
ObjectId string, a missing document, and the handler's own 404 all
surface as the same 404. -/
def get_recipe (recipe_id : String) (s : AppState) : ApiResult RecipeRec :=
  if objectIdValid recipe_id then
    match s.recipes.find? (fun r => r.oid == recipe_id) with
    | none => .httpError 404 "Recipe not found"
    | some r => .ok r
  else .httpError 404 "Recipe not found"

/-- `create_recipe` (server.py:257-274): `Depends(get_current_user)` runs
first; any failure it raises is the response and the handler body never
runs.  On success the handler inserts the recipe document with
`created_by = str(current_user["_id"])` and returns it. -/
def create_recipe (secret : String) (now : Nat) (h : AuthHeaderV)
    (recipe_data : RecipeCreate) (s : AppState) :
    ApiResult RecipeRec × AppState :=
  match get_current_user secret now h s.users with
  | .httpError c m => (.httpError c m, s)
  | .ok current_user =>
    let doc : RecipeRec :=
      { oid := oidOfNat s.nextId, name := recipe_data.name,
        category := recipe_data.category,
        ingredients := recipe_data.ingredients, steps := recipe_data.steps,
        cooking_time := recipe_data.cooking_time,
        difficulty := recipe_data.difficulty, image := recipe_data.image,
        created_by := some current_user.oid, created_at := some now }
    (.ok doc, { s with recipes := s.recipes ++ [doc],
                       nextId := s.nextId + 1 })

/-- `add_favorite` (server.py:300-317): guard first; then if a favorite
document for `(user, recipe_id)` already exists answer "Already in
favorites" without writing, else insert one and answer "Added to
favorites".  The response is the `message` field of the returned dict. -/
def add_favorite (secret : String) (now : Nat) (h : AuthHeaderV)
    (recipe_id : String) (s : AppState) : ApiResult String × AppState :=
  match get_current_user secret now h s.users with
  | .httpError c m => (.httpError c m, s)
  | .ok current_user =>
    match s.favorites.find?
        (fun f => f.user_id == current_user.oid
          && f.recipe_id == recipe_id) with
    | some _ => (.ok "Already in favorites", s)
    | none =>
      (.ok "Added to favorites",
       { s with favorites := s.favorites ++
           [{ user_id := current_user.oid, recipe_id := recipe_id,
              created_at := now }] })

/-! ## Claims -/

/-- C2, as stated, is false: on a malformed (non-hash) string passlib's
`verify` raises `UnknownHashError` rather than returning false, and
`verify_password` does not catch it. -/
theorem C2_counterexample :
    verify_password "pw" (HashStr.other "not-a-hash")
        = Except.error "UnknownHashError: hash could not be identified"
  ∧ verify_password "pw" (HashStr.other "not-a-hash") ≠ Except.ok false := by
  refine ⟨rfl, ?_⟩
  simp [verify_password]

/-- C2 (amended): on a malformed (non-hash) string as the hash argument,
`verify_password` raises an unidentified-hash error instead of returning
false; on a well-formed bcrypt hash it never throws, and returns true iff
the plaintext (up to bcrypt's 72-byte truncation) matches the hash. -/
theorem C2_verify_behavior (pw s : String) (cost salt : Nat) (d : List Nat) :
    verify_password pw (HashStr.other s)
        = .error "UnknownHashError: hash could not be identified"
  ∧ (∃ b : Bool, verify_password pw (HashStr.bcrypt cost salt d) = .ok b)
  ∧ (verify_password pw (HashStr.bcrypt cost salt d) = .ok true
       ↔ bcryptDigest cost salt (bcryptInput pw) = d) := by
  refine ⟨rfl, ⟨_, rfl⟩, ?_⟩
  simp [verify_password]

/-- C4, as stated, is false: bcrypt silently truncates passwords to their
first 72 bytes, so two distinct passwords sharing a 72-byte prefix verify
against each other's hashes.  Witnessed by 73 versus 72 repetitions of
`a`. -/
theorem C4_counterexample :
    String.mk (List.replicate 73 'a') ≠ String.mk (List.replicate 72 'a')
  ∧ verify_password (String.mk (List.replicate 73 'a'))
      (hash_password 0 (String.mk (List.replicate 72 'a'))) = .ok true := by
  refine ⟨by decide, ?_⟩
  simp [verify_password, hash_password]
  decide

/-- C4 (amended): `verify(P, hash(P))` is true for every password `P`;
and `verify(P1, hash(P2))` is false whenever the first 72 UTF-8 bytes of
`P1` and `P2` differ (bcrypt hashes only those bytes). -/
theorem C4_hash_verify_roundtrip (salt : Nat) (p : String) :
    verify_password p (hash_password salt p) = .ok true
  ∧ ∀ salt2 : Nat, ∀ p1 p2 : String,
      bcryptInput p1 ≠ bcryptInput p2 →
      verify_password p1 (hash_password salt2 p2) = .ok false := by
  constructor
  · simp [verify_password, hash_password]
  · intro salt2 p1 p2 hne
    simp [verify_password, hash_password, bcryptDigest]
    exact hne

/-- Witness for `C4_hash_verify_roundtrip` at concrete passwords. -/
theorem C4_hash_verify_roundtrip_witness :
    verify_password "abc" (hash_password 0 "abc") = .ok true
  ∧ verify_password "xy" (hash_password 0 "abc") = .ok false :=
  ⟨(C4_hash_verify_roundtrip 0 "abc").1,
   (C4_hash_verify_roundtrip 0 "abc").2 0 "xy" "abc" (by decide)⟩

/-- C3: a token issued for claims `{user_id}` at time `T` carries expiry
exactly `T + 7 days`; decoding with the issuing secret strictly before
`T + 7 days` returns the claims (with the expiry), and decoding strictly
after fails with `TokenExpired`. -/
theorem C3_token_ttl (secret uid : String) (T : Nat) :
    tokenTTLSeconds = 7 * 24 * 60 * 60
  ∧ create_access_token secret T ⟨some uid⟩
      = .signed ⟨some uid, some (T + tokenTTLSeconds)⟩ secret
  ∧ (∀ ε, ε < tokenTTLSeconds →
      decodeJwt secret (T + ε) (create_access_token secret T ⟨some uid⟩)
        = .ok ⟨some uid, some (T + tokenTTLSeconds)⟩)
  ∧ (∀ t, T + tokenTTLSeconds < t →
      decodeJwt secret t (create_access_token secret T ⟨some uid⟩)
        = .error .expiredSignature) := by
  have hdec : ∀ now : Nat,
      decodeJwt secret now (create_access_token secret T ⟨some uid⟩)
        = if T + tokenTTLSeconds < now then .error .expiredSignature
          else .ok ⟨some uid, some (T + tokenTTLSeconds)⟩ := by
    intro now
    simp [decodeJwt, create_access_token]
  refine ⟨rfl, rfl, ?_, ?_⟩
  · intro ε hε
    rw [hdec, if_neg (by omega)]
  · intro t ht
    rw [hdec, if_pos ht]

/-- Witness for `C3_token_ttl`: a concrete issue/decode round trip. -/
theorem C3_token_ttl_witness :
    decodeJwt "sk" (100 + 5) (create_access_token "sk" 100 ⟨some "u"⟩)
      = .ok ⟨some "u", some (100 + tokenTTLSeconds)⟩
  ∧ decodeJwt "sk" (100 + tokenTTLSeconds + 1)
      (create_access_token "sk" 100 ⟨some "u"⟩) = .error .expiredSignature :=
  ⟨(C3_token_ttl "sk" "u" 100).2.2.1 5 (by decide),
   (C3_token_ttl "sk" "u" 100).2.2.2 (100 + tokenTTLSeconds + 1) (by omega)⟩

/-- C10: for every recipe-id string — well-formed storage identifier or
not — `get_recipe` either returns a stored recipe or answers exactly
404 "Recipe not found"; no other error can surface. -/
theorem C10_get_recipe_total (recipe_id : String) (s : AppState) :
    (∃ r, get_recipe recipe_id s = .ok r ∧ r ∈ s.recipes)
  ∨ get_recipe recipe_id s = .httpError 404 "Recipe not found" := by
  unfold get_recipe
  by_cases h : objectIdValid recipe_id
  · rw [if_pos h]
    cases hf : s.recipes.find? (fun r => r.oid == recipe_id) with
    | none => exact Or.inr rfl
    | some r => exact Or.inl ⟨r, rfl, List.mem_of_find?_eq_some hf⟩
  · rw [if_neg h]
    exact Or.inr rfl

/-- C1, as stated, is false on three counts: a request with no
Authorization header is rejected by `HTTPBearer` with 403, not 401; a
token whose embedded user identifier is not a valid ObjectId string
escapes the handler's `except` clauses and surfaces as 500; and the 401
responses carry distinct messages per internal reason ("Token has
expired" versus "User not found"), so the message is not uniform. -/
theorem C1_counterexample :
    get_current_user "sk" 0 AuthHeaderV.missing []
        = .httpError 403 "Not authenticated"
  ∧ (403 : Nat) ≠ 401
  ∧ get_current_user "sk" 0
      (.schemeTok "bearer" (.signed ⟨some "abc", some 5⟩ "sk")) []
        = .httpError 500 "Internal Server Error"
  ∧ get_current_user "sk" 9
      (.schemeTok "bearer" (.signed ⟨some "u", some 5⟩ "sk")) []
        = .httpError 401 "Token has expired"
  ∧ get_current_user "sk" 0
      (.schemeTok "bearer"
        (.signed ⟨some "507f1f77bcf86cd799439011", some 5⟩ "sk")) []
        = .httpError 401 "User not found"
  ∧ "Token has expired" ≠ "User not found" := by
  exact ⟨rfl, by decide, rfl, rfl, rfl, by decide⟩

/-- C1 (amended): identity-resolution failures are not uniformly 401.
A missing (or credential-less) Authorization header yields 403 "Not
authenticated" and a non-bearer scheme 403 "Invalid authentication
credentials"; with a bearer token present, an expired token, an invalid
token, a payload without `user_id`, and an unknown user each yield 401
but with four distinct reason-revealing messages; and a payload whose
`user_id` is not a valid storage identifier yields a 500 server error. -/
theorem C1_identity_statuses (secret : String) (now : Nat)
    (users : List UserRec) :
    get_current_user secret now .missing users
        = .httpError 403 "Not authenticated"
  ∧ (∀ sch tok, strLower sch ≠ "bearer" →
      get_current_user secret now (.schemeTok sch tok) users
        = .httpError 403 "Invalid authentication credentials")
  ∧ ∀ sch tok, strLower sch = "bearer" →
      (decodeJwt secret now tok = .error .expiredSignature →
        get_current_user secret now (.schemeTok sch tok) users
          = .httpError 401 "Token has expired")
    ∧ (decodeJwt secret now tok = .error .invalidToken →
        get_current_user secret now (.schemeTok sch tok) users
          = .httpError 401 "Could not validate credentials")
    ∧ ∀ p, decodeJwt secret now tok = .ok p →
        (p.user_id = none →
          get_current_user secret now (.schemeTok sch tok) users
            = .httpError 401 "Invalid authentication credentials")
      ∧ (∀ uid, p.user_id = some uid → objectIdValid uid = false →
          get_current_user secret now (.schemeTok sch tok) users
            = .httpError 500 "Internal Server Error")
      ∧ (∀ uid, p.user_id = some uid → objectIdValid uid = true →
          users.find? (fun u => u.oid == uid) = none →
          get_current_user secret now (.schemeTok sch tok) users
            = .httpError 401 "User not found") := by
  refine ⟨rfl, ?_, ?_⟩
  · intro sch tok hsch
    simp [get_current_user, hsch]
  · intro sch tok hsch
    refine ⟨?_, ?_, ?_⟩
    · intro hdec
      simp [get_current_user, hsch, hdec]
    · intro hdec
      simp [get_current_user, hsch, hdec]
    · intro p hdec
      refine ⟨?_, ?_, ?_⟩
      · intro hid
        simp [get_current_user, hsch, hdec, hid]
      · intro uid hid hoid
        simp [get_current_user, hsch, hdec, hid, hoid]
      · intro uid hid hoid hfind
        simp [get_current_user, hsch, hdec, hid, hoid, hfind]

/-- Witness for `C1_identity_statuses`: each failure class at a concrete
request. -/
theorem C1_identity_statuses_witness :
    get_current_user "sk" 0 .missing [] = .httpError 403 "Not authenticated"
  ∧ get_current_user "sk" 0 (.schemeTok "Basic" (.garbled "g")) []
      = .httpError 403 "Invalid authentication credentials"
  ∧ get_current_user "sk" 9
      (.schemeTok "bearer" (.signed ⟨some "u", some 5⟩ "sk")) []
      = .httpError 401 "Token has expired"
  ∧ get_current_user "sk" 0 (.schemeTok "bearer" (.garbled "g")) []
      = .httpError 401 "Could not validate credentials"
  ∧ get_current_user "sk" 0
      (.schemeTok "bearer" (.signed ⟨none, some 5⟩ "sk")) []
      = .httpError 401 "Invalid authentication credentials"
  ∧ get_current_user "sk" 0
      (.schemeTok "bearer" (.signed ⟨some "abc", some 5⟩ "sk")) []
      = .httpError 500 "Internal Server Error"
  ∧ get_current_user "sk" 0
      (.schemeTok "bearer"
        (.signed ⟨some "507f1f77bcf86cd799439011", some 5⟩ "sk")) []
      = .httpError 401 "User not found" :=
  ⟨(C1_identity_statuses "sk" 0 []).1,
   (C1_identity_statuses "sk" 0 []).2.1 "Basic" (.garbled "g") (by decide),
   ((C1_identity_statuses "sk" 9 []).2.2 "bearer"
     (.signed ⟨some "u", some 5⟩ "sk") (by decide)).1 rfl,
   ((C1_identity_statuses "sk" 0 []).2.2 "bearer" (.garbled "g")
     (by decide)).2.1 rfl,
   (((C1_identity_statuses "sk" 0 []).2.2 "bearer"
     (.signed ⟨none, some 5⟩ "sk") (by decide)).2.2 ⟨none, some 5⟩
     rfl).1 rfl,
   (((C1_identity_statuses "sk" 0 []).2.2 "bearer"
     (.signed ⟨some "abc", some 5⟩ "sk") (by decide)).2.2 ⟨some "abc", some 5⟩
     rfl).2.1 "abc" rfl (by decide),
   (((C1_identity_statuses "sk" 0 []).2.2 "bearer"
     (.signed ⟨some "507f1f77bcf86cd799439011", some 5⟩ "sk")
     (by decide)).2.2 ⟨some "507f1f77bcf86cd799439011", some 5⟩
     rfl).2.2 "507f1f77bcf86cd799439011" rfl (by decide) rfl⟩

/-- C5: a login for an email with no matching user and a login for an
existing user with a wrong password produce the identical
401 "Incorrect email or password" response, revealing nothing about
which factor failed; and login never changes the store. -/
theorem C5_login_uniform (secret : String) (now : Nat) (s : AppState)
    (r1 r2 : UserLogin) (u : UserRec)
    (h1 : s.users.find? (fun v => v.email == r1.email) = none)
    (h2 : s.users.find? (fun v => v.email == r2.email) = some u)
    (h3 : verify_password r2.password u.password = .ok false) :
    (login secret now r1 s).1 = .httpError 401 "Incorrect email or password"
  ∧ (login secret now r2 s).1 = .httpError 401 "Incorrect email or password"
  ∧ (login secret now r1 s).1 = (login secret now r2 s).1
  ∧ (∀ r s0, (login secret now r s0).2 = s0) := by
  have e1 : (login secret now r1 s).1
      = .httpError 401 "Incorrect email or password" := by
    simp [login, h1]
  have e2 : (login secret now r2 s).1
      = .httpError 401 "Incorrect email or password" := by
    simp [login, h2, h3]
  have e3 : ∀ r s0, (login secret now r s0).2 = s0 := by
    intro r s0
    cases hf : s0.users.find? (fun v => v.email == r.email) with
    | none => simp [login, hf]
    | some v =>
      cases hv : verify_password r.password v.password with
      | error e => simp [login, hf, hv]
      | ok b => cases b <;> simp [login, hf, hv]
  exact ⟨e1, e2, by rw [e1, e2], e3⟩

/-- Witness for `C5_login_uniform`: one stored user, one login with an
unknown email and one with the right email but wrong password. -/
theorem C5_login_uniform_witness :
    (login "sk" 0 ⟨"b@x.com", "pw123"⟩
        ⟨[⟨"507f1f77bcf86cd799439011", "a@x.com", hash_password 7 "pw123",
           "A", 0⟩], [], [], 1⟩).1
      = .httpError 401 "Incorrect email or password"
  ∧ (login "sk" 0 ⟨"a@x.com", "wrong"⟩
        ⟨[⟨"507f1f77bcf86cd799439011", "a@x.com", hash_password 7 "pw123",
           "A", 0⟩], [], [], 1⟩).1
      = .httpError 401 "Incorrect email or password" := by
  have h := C5_login_uniform "sk" 0
    ⟨[⟨"507f1f77bcf86cd799439011", "a@x.com", hash_password 7 "pw123",
       "A", 0⟩], [], [], 1⟩
    ⟨"b@x.com", "pw123"⟩ ⟨"a@x.com", "wrong"⟩
    ⟨"507f1f77bcf86cd799439011", "a@x.com", hash_password 7 "pw123", "A", 0⟩
    (by decide) (by decide) rfl
  exact ⟨h.1, h.2.1⟩

/-- C6: registering an email that is already stored (exact, case-sensitive
string match) fails with 400 "Email already registered" and leaves the
store untouched; starting from a store with no user under that email,
one register leaves exactly one matching user record and a second
register of the same email fails, still leaving exactly one. -/
theorem C6_register_email_unique (secret : String) (now salt now2 salt2 : Nat)
    (req req2 : UserRegister) (s : AppState)
    (hsame : req2.email = req.email)
    (hfresh : s.users.countP (fun u => u.email == req.email) = 0) :
    (∀ s' : AppState,
      (s'.users.find? (fun u => u.email == req2.email)).isSome = true →
      register secret now2 salt2 req2 s'
        = (.httpError 400 "Email already registered", s'))
  ∧ ((register secret now salt req s).2.users.countP
        (fun u => u.email == req.email) = 1)
  ∧ register secret now2 salt2 req2 ((register secret now salt req s).2)
      = (.httpError 400 "Email already registered",
         (register secret now salt req s).2) := by
  have hdup : ∀ s' : AppState,
      (s'.users.find? (fun u => u.email == req2.email)).isSome = true →
      register secret now2 salt2 req2 s'
        = (.httpError 400 "Email already registered", s') := by
    intro s' hs
    obtain ⟨u, hu⟩ := Option.isSome_iff_exists.mp hs
    simp [register, hu]
  have hnone : s.users.find? (fun u => u.email == req.email) = none := by
    rw [List.find?_eq_none]
    intro x hx
    simpa using (List.countP_eq_zero.mp hfresh) x hx
  have hstep : (register secret now salt req s).2.users
      = s.users ++ [⟨oidOfNat s.nextId, req.email,
          hash_password salt req.password, req.name, now⟩] := by
    simp [register, hnone]
  have hcount : (register secret now salt req s).2.users.countP
      (fun u => u.email == req.email) = 1 := by
    rw [hstep, List.countP_append, hfresh]
    simp
  refine ⟨hdup, hcount, ?_⟩
  apply hdup
  rw [hstep, hsame]
  exact List.find?_isSome.mpr
    ⟨⟨oidOfNat s.nextId, req.email, hash_password salt req.password,
       req.name, now⟩, by simp, by simp⟩

/-- Witness for `C6_register_email_unique`: the same email registered
twice against an initially empty store. -/
theorem C6_register_email_unique_witness :
    ((register "sk" 0 3 ⟨"a@x.com", "pw", "A"⟩ ⟨[], [], [], 0⟩).2.users.countP
        (fun u => u.email == "a@x.com") = 1)
  ∧ register "sk" 1 4 ⟨"a@x.com", "pw2", "B"⟩
      ((register "sk" 0 3 ⟨"a@x.com", "pw", "A"⟩ ⟨[], [], [], 0⟩).2)
      = (.httpError 400 "Email already registered",
         (register "sk" 0 3 ⟨"a@x.com", "pw", "A"⟩ ⟨[], [], [], 0⟩).2) := by
  have h := C6_register_email_unique "sk" 0 3 1 4 ⟨"a@x.com", "pw", "A"⟩
    ⟨"a@x.com", "pw2", "B"⟩ ⟨[], [], [], 0⟩ rfl (by decide)
  exact ⟨h.2.1, h.2.2⟩

/-- C7: the guarded operations (recipe creation, favorites) run the
identity resolver first; every resolver failure is returned as-is with
the store unchanged (no insert happens), and on success the handler runs
with the resolved user: the created recipe's `created_by` is that user's
id, and a favorite is checked/inserted under that user's id. -/
theorem C7_guard_short_circuits (secret : String) (now : Nat)
    (h : AuthHeaderV) (recipe_data : RecipeCreate) (rid : String)
    (s : AppState) :
    (∀ c m, get_current_user secret now h s.users = .httpError c m →
        create_recipe secret now h recipe_data s = (.httpError c m, s)
      ∧ add_favorite secret now h rid s = (.httpError c m, s))
  ∧ (∀ u, get_current_user secret now h s.users = .ok u →
      (∃ r, create_recipe secret now h recipe_data s
          = (.ok r, { s with recipes := s.recipes ++ [r],
                             nextId := s.nextId + 1 })
        ∧ r.created_by = some u.oid)
    ∧ (add_favorite secret now h rid s = (.ok "Already in favorites", s)
      ∨ add_favorite secret now h rid s
          = (.ok "Added to favorites",
             { s with favorites := s.favorites ++ [⟨u.oid, rid, now⟩] }))) := by
  constructor
  · intro c m hgcu
    exact ⟨by simp [create_recipe, hgcu], by simp [add_favorite, hgcu]⟩
  · intro u hgcu
    constructor
    · refine ⟨{ oid := oidOfNat s.nextId, name := recipe_data.name,
                category := recipe_data.category,
                ingredients := recipe_data.ingredients,
                steps := recipe_data.steps,
                cooking_time := recipe_data.cooking_time,
                difficulty := recipe_data.difficulty,
                image := recipe_data.image,
                created_by := some u.oid, created_at := some now },
              ?_, rfl⟩
      simp [create_recipe, hgcu]
    · cases hf : s.favorites.find?
          (fun f => f.user_id == u.oid && f.recipe_id == rid) with
      | some f => exact Or.inl (by simp [add_favorite, hgcu, hf])
      | none => exact Or.inr (by simp [add_favorite, hgcu, hf])

/-- Witness for `C7_guard_short_circuits`: a missing header against one
store (no writes), and a valid token against a store holding its user
(recipe created by that user). -/
theorem C7_guard_short_circuits_witness :
    (create_recipe "sk" 0 .missing ⟨"Dal", "veg", ["dal"], ["cook"],
        "35 minutes", "easy", "img"⟩
      ⟨[⟨"507f1f77bcf86cd799439011", "a@x.com", hash_password 7 "pw",
         "A", 0⟩], [], [], 1⟩
      = (.httpError 403 "Not authenticated",
         ⟨[⟨"507f1f77bcf86cd799439011", "a@x.com", hash_password 7 "pw",
            "A", 0⟩], [], [], 1⟩)
    ∧ add_favorite "sk" 0 .missing "r1"
        ⟨[⟨"507f1f77bcf86cd799439011", "a@x.com", hash_password 7 "pw",
           "A", 0⟩], [], [], 1⟩
      = (.httpError 403 "Not authenticated",
         ⟨[⟨"507f1f77bcf86cd799439011", "a@x.com", hash_password 7 "pw",
            "A", 0⟩], [], [], 1⟩))
  ∧ ∃ r, (create_recipe "sk" 0
        (.schemeTok "bearer"
          (.signed ⟨some "507f1f77bcf86cd799439011", some 5⟩ "sk"))
        ⟨"Dal", "veg", ["dal"], ["cook"], "35 minutes", "easy", "img"⟩
        ⟨[⟨"507f1f77bcf86cd799439011", "a@x.com", hash_password 7 "pw",
           "A", 0⟩], [], [], 1⟩).1 = .ok r
    ∧ r.created_by = some "507f1f77bcf86cd799439011" := by
  have hfail := (C7_guard_short_circuits "sk" 0 .missing
    ⟨"Dal", "veg", ["dal"], ["cook"], "35 minutes", "easy", "img"⟩ "r1"
    ⟨[⟨"507f1f77bcf86cd799439011", "a@x.com", hash_password 7 "pw",
       "A", 0⟩], [], [], 1⟩).1 403 "Not authenticated" rfl
  have hok := (C7_guard_short_circuits "sk" 0
    (.schemeTok "bearer"
      (.signed ⟨some "507f1f77bcf86cd799439011", some 5⟩ "sk"))
    ⟨"Dal", "veg", ["dal"], ["cook"], "35 minutes", "easy", "img"⟩ "r1"
    ⟨[⟨"507f1f77bcf86cd799439011", "a@x.com", hash_password 7 "pw",
       "A", 0⟩], [], [], 1⟩).2
    ⟨"507f1f77bcf86cd799439011", "a@x.com", hash_password 7 "pw", "A", 0⟩
    rfl
  obtain ⟨r, hr, hby⟩ := hok.1
  exact ⟨hfail, r, by rw [hr], hby⟩

/-- C8: the user object in every successful register and login response
serializes to exactly the keys `id`, `email`, `name` — in particular no
`password` key, so the password hash is never in the response. -/
theorem C8_public_view (secret : String) (now salt : Nat)
    (req : UserRegister) (lreq : UserLogin) (s : AppState) :
    (∀ tk, (register secret now salt req s).1 = .ok tk →
        (userViewPairs tk.user).map Prod.fst = ["id", "email", "name"]
      ∧ "password" ∉ (userViewPairs tk.user).map Prod.fst)
  ∧ (∀ tk, (login secret now lreq s).1 = .ok tk →
        (userViewPairs tk.user).map Prod.fst = ["id", "email", "name"]
      ∧ "password" ∉ (userViewPairs tk.user).map Prod.fst) := by
  constructor <;> intro tk _ <;> exact ⟨rfl, by simp [userViewPairs]⟩

/-- Witness for `C8_public_view`: the concrete register success of a
fresh store. -/
theorem C8_public_view_witness :
    (userViewPairs (⟨oidOfNat 0, "a@x.com", "A"⟩ : UserPub)).map Prod.fst
        = ["id", "email", "name"]
  ∧ "password" ∉ (userViewPairs
        (⟨oidOfNat 0, "a@x.com", "A"⟩ : UserPub)).map Prod.fst :=
  (C8_public_view "sk" 0 3 ⟨"a@x.com", "pw", "A"⟩ ⟨"b@x.com", "q"⟩
      ⟨[], [], [], 0⟩).1
    ⟨create_access_token "sk" 0 ⟨some (oidOfNat 0)⟩, "bearer",
     ⟨oidOfNat 0, "a@x.com", "A"⟩⟩ rfl

/-- C9: for an authenticated user, adding an already-present favorite
answers "Already in favorites" and writes nothing, and the added-favorite
count per (user, recipe) pair never exceeds one. -/
theorem C9_add_favorite_idempotent (secret : String) (now : Nat)
    (h : AuthHeaderV) (rid : String) (s : AppState) (u : UserRec)
    (hu : get_current_user secret now h s.users = .ok u) :
    ((s.favorites.find?
        (fun f => f.user_id == u.oid && f.recipe_id == rid)).isSome = true →
      add_favorite secret now h rid s = (.ok "Already in favorites", s))
  ∧ (s.favorites.countP
        (fun f => f.user_id == u.oid && f.recipe_id == rid) ≤ 1 →
      (add_favorite secret now h rid s).2.favorites.countP
          (fun f => f.user_id == u.oid && f.recipe_id == rid) ≤ 1) := by
  constructor
  · intro hex
    obtain ⟨f, hf⟩ := Option.isSome_iff_exists.mp hex
    simp [add_favorite, hu, hf]
  · intro hle
    cases hf : s.favorites.find?
        (fun f => f.user_id == u.oid && f.recipe_id == rid) with
    | some f =>
      simpa [add_favorite, hu, hf] using hle
    | none =>
      have h0 : s.favorites.countP
          (fun f => f.user_id == u.oid && f.recipe_id == rid) = 0 := by
        rw [List.countP_eq_zero]
        intro a ha
        simpa using List.find?_eq_none.mp hf a ha
      simp [add_favorite, hu, hf, List.countP_append, h0]

/-- Witness for `C9_add_favorite_idempotent`: re-adding a favorite that
is already stored. -/
theorem C9_add_favorite_idempotent_witness :
    add_favorite "sk" 0
      (.schemeTok "bearer"
        (.signed ⟨some "507f1f77bcf86cd799439011", some 5⟩ "sk")) "r1"
      ⟨[⟨"507f1f77bcf86cd799439011", "a@x.com", hash_password 7 "pw",
         "A", 0⟩], [], [⟨"507f1f77bcf86cd799439011", "r1", 0⟩], 1⟩
      = (.ok "Already in favorites",
         ⟨[⟨"507f1f77bcf86cd799439011", "a@x.com", hash_password 7 "pw",
            "A", 0⟩], [], [⟨"507f1f77bcf86cd799439011", "r1", 0⟩], 1⟩)
  ∧ ((add_favorite "sk" 0
      (.schemeTok "bearer"
        (.signed ⟨some "507f1f77bcf86cd799439011", some 5⟩ "sk")) "r1"
      ⟨[⟨"507f1f77bcf86cd799439011", "a@x.com", hash_password 7 "pw",
         "A", 0⟩], [], [⟨"507f1f77bcf86cd799439011", "r1", 0⟩], 1⟩).2.favorites.countP
        (fun f => f.user_id == "507f1f77bcf86cd799439011"
          && f.recipe_id == "r1") ≤ 1) := by
  have h := C9_add_favorite_idempotent "sk" 0
    (.schemeTok "bearer"
      (.signed ⟨some "507f1f77bcf86cd799439011", some 5⟩ "sk")) "r1"
    ⟨[⟨"507f1f77bcf86cd799439011", "a@x.com", hash_password 7 "pw",
       "A", 0⟩], [], [⟨"507f1f77bcf86cd799439011", "r1", 0⟩], 1⟩
    ⟨"507f1f77bcf86cd799439011", "a@x.com", hash_password 7 "pw", "A", 0⟩
    rfl
  exact ⟨h.1 (by decide), h.2 (by decide)⟩

end RecipeApp
